import Mathlib

/-
Verification development for the telex-chat-bot stock-analysis core.

The Python sources under chatbot/ are embedded shallowly:

* numbers are modelled by an arbitrary linear ordered field K; the pipeline
  level theorems instantiate K := ℚ, the Graham-number theorem instantiates
  K := ℝ with `Real.sqrt` for Python's `x ** 0.5`;
* pandas/numpy `Close` series values are rationals, but the derived-return
  arithmetic is carried out in `NpFloat`, which adds the IEEE special values
  `inf`, `-inf`, `nan` that numpy float64 division produces (numpy division
  by zero warns and yields `inf`; it does not raise, so the surrounding
  `try/except` in `_calculate_return` cannot catch it);
* Python `None` is `Option.none`; truthiness of a float value (`if x:`) is
  "present and nonzero"; a dictionary produced by `get_stock_data` always
  carries every key, so `data.get('eps', 0)` yields the stored value, which
  is `None` (not the default `0`) when the provider had no eps — comparing
  it with `>` raises `TypeError`, which the enclosing `try/except` of
  `calculate_intrinsic_value` converts to `None`;
* external collaborators (market-data provider, OpenAI prose generation,
  the regular-expression engine and the intent extraction regexes, the
  stored-pattern table) are abstracted as explicit function/state
  parameters; everything downstream of them is translated from the source.
-/

namespace TelexBot

/-- Model of a numpy float64 value as produced by the derived-return
arithmetic: a finite rational or one of the IEEE special values. -/
inductive NpFloat where
  | fin : ℚ → NpFloat
  | posInf : NpFloat
  | negInf : NpFloat
  | nan : NpFloat
deriving DecidableEq

/-- numpy float64 subtraction on the modelled values. -/
def npSub : NpFloat → NpFloat → NpFloat
  | NpFloat.fin a, NpFloat.fin b => NpFloat.fin (a - b)
  | NpFloat.posInf, NpFloat.fin _ => NpFloat.posInf
  | NpFloat.negInf, NpFloat.fin _ => NpFloat.negInf
  | NpFloat.fin _, NpFloat.posInf => NpFloat.negInf
  | NpFloat.fin _, NpFloat.negInf => NpFloat.posInf
  | NpFloat.posInf, NpFloat.negInf => NpFloat.posInf
  | NpFloat.negInf, NpFloat.posInf => NpFloat.negInf
  | _, _ => NpFloat.nan

/-- numpy float64 division: division by zero emits a RuntimeWarning and
returns a signed infinity (or nan for 0/0); it does not raise. -/
def npDiv : NpFloat → NpFloat → NpFloat
  | NpFloat.fin a, NpFloat.fin b =>
      if b = 0 then
        (if a = 0 then NpFloat.nan else if 0 < a then NpFloat.posInf else NpFloat.negInf)
      else NpFloat.fin (a / b)
  | NpFloat.posInf, NpFloat.fin b => if 0 ≤ b then NpFloat.posInf else NpFloat.negInf
  | NpFloat.negInf, NpFloat.fin b => if 0 ≤ b then NpFloat.negInf else NpFloat.posInf
  | NpFloat.fin _, NpFloat.posInf => NpFloat.fin 0
  | NpFloat.fin _, NpFloat.negInf => NpFloat.fin 0
  | _, _ => NpFloat.nan

/-- numpy float64 multiplication on the modelled values. -/
def npMul : NpFloat → NpFloat → NpFloat
  | NpFloat.fin a, NpFloat.fin b => NpFloat.fin (a * b)
  | NpFloat.posInf, NpFloat.fin b =>
      if b = 0 then NpFloat.nan else if 0 < b then NpFloat.posInf else NpFloat.negInf
  | NpFloat.negInf, NpFloat.fin b =>
      if b = 0 then NpFloat.nan else if 0 < b then NpFloat.negInf else NpFloat.posInf
  | NpFloat.fin a, NpFloat.posInf =>
      if a = 0 then NpFloat.nan else if 0 < a then NpFloat.posInf else NpFloat.negInf
  | NpFloat.fin a, NpFloat.negInf =>
      if a = 0 then NpFloat.nan else if 0 < a then NpFloat.negInf else NpFloat.posInf
  | NpFloat.posInf, NpFloat.posInf => NpFloat.posInf
  | NpFloat.negInf, NpFloat.negInf => NpFloat.posInf
  | NpFloat.posInf, NpFloat.negInf => NpFloat.negInf
  | NpFloat.negInf, NpFloat.posInf => NpFloat.negInf
  | _, _ => NpFloat.nan

/-- Python `str.lower` on one ASCII character. -/
def lowerChar (c : Char) : Char :=
  if 65 ≤ c.toNat ∧ c.toNat ≤ 90 then Char.ofNat (c.toNat + 32) else c

/-- Python `str.upper` on one ASCII character. -/
def upperChar (c : Char) : Char :=
  if 97 ≤ c.toNat ∧ c.toNat ≤ 122 then Char.ofNat (c.toNat - 32) else c

/-- Python `str.lower` (ASCII case mapping). -/
def pyToLower (s : String) : String :=
  String.mk (s.data.map lowerChar)

/-- Python `str.upper` (ASCII case mapping). -/
def pyToUpper (s : String) : String :=
  String.mk (s.data.map upperChar)

/-- The whitespace characters stripped by Python `str.strip`. -/
def wsChar (c : Char) : Bool :=
  c = ' ' || c = '\t' || c = '\n' || c = '\r'

/-- Python `str.strip`: drop leading and trailing whitespace. -/
def pyStrip (s : String) : String :=
  String.mk (((s.data.dropWhile wsChar).reverse.dropWhile wsChar).reverse)

/-- Whether the first character list is an initial segment of the second. -/
def charsStartWith : List Char → List Char → Bool
  | [], _ => true
  | _ :: _, [] => false
  | a :: as, b :: bs => a = b && charsStartWith as bs

/-- Whether the first character list occurs contiguously in the second:
Python's substring containment `pat in text`. -/
def charsContain (pat : List Char) : List Char → Bool
  | [] => pat.isEmpty
  | c :: cs => charsStartWith pat (c :: cs) || charsContain pat cs

/-- Python `str.startswith`. -/
def pyStartsWith (s pre : String) : Bool :=
  charsStartWith pre.data s.data

/-- Embeds `StockAnalyzer._calculate_return`: percentage return over the trailing
`days` closes.  `hist['Close'].iloc[-days]` is index `len - days` for
`days > 0` and index `0` for `days = 0` (Python `-0 == 0`); an out-of-range
index raises IndexError, caught by the bare `except` as `None`.  The
division itself happens on numpy float64 values, hence in `NpFloat`. -/
def calculate_return (closes : List ℚ) (days : Nat) : Option NpFloat :=
  if closes.length < days then none
  else
    let idx := if days = 0 then 0 else closes.length - days
    match closes[idx]?, closes.getLast? with
    | some startp, some endp =>
        some (npMul (npDiv (npSub (NpFloat.fin endp) (NpFloat.fin startp)) (NpFloat.fin startp))
          (NpFloat.fin 100))
    | _, _ => none

/-- The data dictionary assembled by `StockAnalyzer.get_stock_data`.  Every
key is always present; a missing provider value is `none`.  Field names
follow the dictionary keys (`52w_high` is not a valid identifier, hence
`week52_high`, and similarly for the derived returns). -/
structure Snapshot (K : Type) where
  symbol : String := ""
  name : String := ""
  current_price : Option K := none
  market_cap : Option K := none
  pe_ratio : Option K := none
  forward_pe : Option K := none
  pb_ratio : Option K := none
  ps_ratio : Option K := none
  peg_ratio : Option K := none
  dividend_yield : Option K := none
  eps : Option K := none
  revenue : Option K := none
  profit_margin : Option K := none
  debt_to_equity : Option K := none
  roe : Option K := none
  roa : Option K := none
  beta : Option K := none
  week52_high : Option K := none
  week52_low : Option K := none
  avg_volume : Option K := none
  sector : Option String := none
  industry : Option String := none
  recommendation : Option String := none
  target_price : Option K := none
  analyst_count : Option K := none
  history : List ℚ := []
  week52_return : Option NpFloat := none
  month1_return : Option NpFloat := none
  week1_return : Option NpFloat := none
deriving DecidableEq

/-- The `results` dictionary of `StockAnalyzer.calculate_intrinsic_value`.
Each branch of the source inserts its pair of keys together, so a field pair
is `none`/`some` jointly. -/
structure ValuationResult (K : Type) where
  pe_fair_value : Option K := none
  pe_upside : Option K := none
  graham_number : Option K := none
  graham_upside : Option K := none
  peg_ratio : Option K := none
  peg_valuation : Option String := none
  pb_ratio : Option K := none
  pb_signal : Option String := none
  target_price : Option K := none
  target_upside : Option K := none
deriving DecidableEq

/-- Python truthiness of an optional float: `None` and `0` are falsy. -/
def pyTruthy {K : Type} [Zero K] [DecidableEq K] (o : Option K) : Bool :=
  match o with
  | none => false
  | some x => x ≠ 0

/-- The branches of `calculate_intrinsic_value` after the P/E block:
Graham number, PEG classification, P/B classification and analyst-target
upside.  `sqrt` models Python's `** 0.5` on floats.  `cp` is the (truthy)
current price. -/
def valuationRest {K : Type} [LinearOrderedField K] (sqrt : K → K) (data : Snapshot K)
    (cp : K) : ValuationResult K :=
  -- book_value = current_price / data.get('pb_ratio', 1) if data.get('pb_ratio') else None
  let book_value : Option K :=
    match data.pb_ratio with
    | some p => if p ≠ 0 then some (cp / p) else none
    | none => none
  -- if eps and book_value and eps > 0 and book_value > 0:
  let graham : Option K × Option K :=
    match data.eps, book_value with
    | some e, some b =>
        if e ≠ 0 ∧ b ≠ 0 ∧ 0 < e ∧ 0 < b then
          -- graham_number = (22.5 * eps * book_value) ** 0.5
          let g := sqrt (45 / 2 * e * b)
          (some g, some ((g - cp) / cp * 100))
        else (none, none)
    | _, _ => (none, none)
  -- if peg_ratio:
  let peg : Option K × Option String :=
    match data.peg_ratio with
    | some x =>
        if x ≠ 0 then
          (some x, some (if x < 1 then ("undervalued") else
            if 2 < x then ("overvalued") else ("fairly valued")))
        else (none, none)
    | none => (none, none)
  -- if pb_ratio:
  let pb : Option K × Option String :=
    match data.pb_ratio with
    | some x =>
        if x ≠ 0 then
          (some x, some (if x < 1 then ("undervalued") else
            if 3 < x then ("overvalued") else ("neutral")))
        else (none, none)
    | none => (none, none)
  -- if target_price:
  let tgt : Option K × Option K :=
    match data.target_price with
    | some t => if t ≠ 0 then (some t, some ((t - cp) / cp * 100)) else (none, none)
    | none => (none, none)
  { pe_fair_value := none, pe_upside := none,
    graham_number := graham.1, graham_upside := graham.2,
    peg_ratio := peg.1, peg_valuation := peg.2,
    pb_ratio := pb.1, pb_signal := pb.2,
    target_price := tgt.1, target_upside := tgt.2 }

/-- Embeds `StockAnalyzer.calculate_intrinsic_value`.  Returns `none` for Python
`None`: when `current_price` is falsy (`if not current_price`), and when the
P/E branch raises — with `pe_ratio` truthy and positive, `data.get('eps', 0)`
yields the stored `None` for an absent eps (the key is always present in the
dictionary built by `get_stock_data`), and `None > 0` raises `TypeError`,
which the enclosing `try/except` turns into `None`. -/
def calculate_intrinsic_value {K : Type} [LinearOrderedField K] (sqrt : K → K)
    (data : Snapshot K) : Option (ValuationResult K) :=
  match data.current_price with
  | none => none
  | some cp =>
    if cp = 0 then none
    else
      match data.pe_ratio with
      | some p =>
        -- if pe_ratio and pe_ratio > 0:
        if p ≠ 0 ∧ 0 < p then
          match data.eps with
          | none => none  -- TypeError on `None > 0`, caught as None
          | some e =>
            if 0 < e then
              some { valuationRest sqrt data cp with
                       pe_fair_value := some (e * 18),
                       pe_upside := some ((e * 18 - cp) / cp * 100) }
            else some (valuationRest sqrt data cp)
        else some (valuationRest sqrt data cp)
      | none => some (valuationRest sqrt data cp)

/-- Python truthiness of the `results` dictionary: empty (no branch fired)
is falsy.  A branch that fires always sets the first key of its pair. -/
def ValuationResult.isEmptyDict {K : Type} (v : ValuationResult K) : Bool :=
  v.pe_fair_value.isNone && v.graham_number.isNone && v.peg_ratio.isNone &&
    v.pb_ratio.isNone && v.target_price.isNone

/-- The test `if x and x > t:` for an optional float `x` fetched with `.get`:
`None` is falsy (short-circuit, no comparison), a stored value votes when it
is truthy and exceeds the threshold. -/
def optGtVote {K : Type} [LinearOrderedField K] (o : Option K) (t : K) : Bool :=
  match o with
  | none => false
  | some x => decide (x ≠ 0 ∧ t < x)

/-- Embeds `StockAnalyzer.is_undervalued`: collects the six votes, averages the
contributed upside estimates (`np.mean`, guarded against the empty list) and
maps the vote count to the confidence tier. -/
def is_undervalued {K : Type} [LinearOrderedField K] (data : Snapshot K)
    (v : ValuationResult K) : Bool × String × K :=
  let peg_vote : Bool := v.peg_valuation = some ("undervalued")
  let pe_vote : Bool := optGtVote v.pe_upside 10
  let graham_vote : Bool := optGtVote v.graham_upside 15
  let pb_vote : Bool := v.pb_signal = some ("undervalued")
  let target_vote : Bool := optGtVote v.target_upside 10
  -- if roe and roe > 0.15 and profit_margin and profit_margin > 0.10:
  let prof_vote : Bool :=
    (match data.roe with
     | some r => decide (r ≠ 0 ∧ 3 / 20 < r)
     | none => false) &&
    (match data.profit_margin with
     | some m => decide (m ≠ 0 ∧ 1 / 10 < m)
     | none => false)
  let signals : List String :=
    (if peg_vote then ["peg"] else []) ++ (if pe_vote then ["pe"] else []) ++
    (if graham_vote then ["graham"] else []) ++ (if pb_vote then ["pb"] else []) ++
    (if target_vote then ["analyst"] else []) ++ (if prof_vote then ["profitability"] else [])
  let upside_estimates : List K :=
    (if peg_vote then [20] else []) ++
    (if pe_vote then [v.pe_upside.getD 0] else []) ++
    (if graham_vote then [v.graham_upside.getD 0] else []) ++
    (if pb_vote then [15] else []) ++
    (if target_vote then [v.target_upside.getD 0] else [])
  let num_signals := signals.length
  let avg_upside : K :=
    if upside_estimates.isEmpty then 0
    else upside_estimates.sum / (upside_estimates.length : K)
  if 3 ≤ num_signals then (true, "high", avg_upside)
  else if 2 ≤ num_signals then (true, "medium", avg_upside)
  else if 1 ≤ num_signals then (true, "low", avg_upside)
  else (false, "none", 0)

/-- Modelled from the spec wording of the verdict aggregator (claim C3):
`peUpside present and > 10` votes with upside `peUpside`, and similarly for
the other signals, with no truthiness side condition. -/
def specGtVote {K : Type} [LinearOrderedField K] (o : Option K) (t : K) : Bool :=
  match o with
  | none => false
  | some x => decide (t < x)

/-- Modelled from the spec wording (claim C3): the verdict aggregator as the
spec states it — one vote per signal (PEG undervalued: fixed 20; peUpside
> 10; grahamUpside > 15; P/B undervalued: fixed 15; targetUpside > 10;
profitability `roe > 0.15` and `profitMargin > 0.10` with no upside),
expected upside the arithmetic mean of contributed estimates (0 when none),
confidence from the vote count, undervalued iff confidence is not none. -/
def spec_aggregate {K : Type} [LinearOrderedField K] (data : Snapshot K)
    (v : ValuationResult K) : Bool × String × K :=
  let peg_vote : Bool := v.peg_valuation = some ("undervalued")
  let pe_vote : Bool := specGtVote v.pe_upside 10
  let graham_vote : Bool := specGtVote v.graham_upside 15
  let pb_vote : Bool := v.pb_signal = some ("undervalued")
  let target_vote : Bool := specGtVote v.target_upside 10
  let prof_vote : Bool :=
    (match data.roe with
     | some r => decide (3 / 20 < r)
     | none => false) &&
    (match data.profit_margin with
     | some m => decide (1 / 10 < m)
     | none => false)
  let signals : List String :=
    (if peg_vote then ["peg"] else []) ++ (if pe_vote then ["pe"] else []) ++
    (if graham_vote then ["graham"] else []) ++ (if pb_vote then ["pb"] else []) ++
    (if target_vote then ["analyst"] else []) ++ (if prof_vote then ["profitability"] else [])
  let upside_estimates : List K :=
    (if peg_vote then [20] else []) ++
    (if pe_vote then [v.pe_upside.getD 0] else []) ++
    (if graham_vote then [v.graham_upside.getD 0] else []) ++
    (if pb_vote then [15] else []) ++
    (if target_vote then [v.target_upside.getD 0] else [])
  let num_signals := signals.length
  let avg_upside : K :=
    if upside_estimates.isEmpty then 0
    else upside_estimates.sum / (upside_estimates.length : K)
  if 3 ≤ num_signals then (true, "high", avg_upside)
  else if 2 ≤ num_signals then (true, "medium", avg_upside)
  else if 1 ≤ num_signals then (true, "low", avg_upside)
  else (false, "none", 0)

/-- The `info` mapping returned by the market-data provider (yfinance
`Ticker.info`), restricted to the keys `get_stock_data` reads. -/
structure ProviderInfo where
  longName : Option String := none
  currentPrice : Option ℚ := none
  regularMarketPrice : Option ℚ := none
  marketCap : Option ℚ := none
  trailingPE : Option ℚ := none
  forwardPE : Option ℚ := none
  priceToBook : Option ℚ := none
  priceToSales : Option ℚ := none
  pegRatio : Option ℚ := none
  dividendYield : Option ℚ := none
  trailingEps : Option ℚ := none
  totalRevenue : Option ℚ := none
  profitMargins : Option ℚ := none
  debtToEquity : Option ℚ := none
  returnOnEquity : Option ℚ := none
  returnOnAssets : Option ℚ := none
  beta : Option ℚ := none
  fiftyTwoWeekHigh : Option ℚ := none
  fiftyTwoWeekLow : Option ℚ := none
  averageVolume : Option ℚ := none
  sector : Option String := none
  industry : Option String := none
  recommendationKey : Option String := none
  targetMeanPrice : Option ℚ := none
  numberOfAnalystOpinions : Option ℚ := none
deriving DecidableEq

/-- One provider round trip: the `info` mapping together with one year of
daily closes (`hist['Close']`). -/
structure ProviderData where
  info : ProviderInfo := {}
  closes : List ℚ := []
deriving DecidableEq

/-- Python `a or b` on optional floats: the first operand when truthy,
otherwise the second operand unchanged. -/
def pyOr (a b : Option ℚ) : Option ℚ :=
  match a with
  | some x => if x ≠ 0 then some x else b
  | none => b

/-- Embeds `StockAnalyzer.get_stock_data`: any provider-level error is caught and
converted to `None`; an empty historical series is also `None`; otherwise
the full data dictionary is assembled, including the derived returns over
252/21/5 trading days. -/
def get_stock_data (provider : String → Except Unit ProviderData) (symbol : String) :
    Option (Snapshot ℚ) :=
  match provider (pyToUpper symbol) with
  | Except.error _ => none
  | Except.ok pd =>
    if pd.closes.isEmpty then none
    else
      some {
        symbol := pyToUpper symbol,
        name := pd.info.longName.getD symbol,
        current_price := pyOr pd.info.currentPrice pd.info.regularMarketPrice,
        market_cap := pd.info.marketCap,
        pe_ratio := pd.info.trailingPE,
        forward_pe := pd.info.forwardPE,
        pb_ratio := pd.info.priceToBook,
        ps_ratio := pd.info.priceToSales,
        peg_ratio := pd.info.pegRatio,
        dividend_yield := pd.info.dividendYield,
        eps := pd.info.trailingEps,
        revenue := pd.info.totalRevenue,
        profit_margin := pd.info.profitMargins,
        debt_to_equity := pd.info.debtToEquity,
        roe := pd.info.returnOnEquity,
        roa := pd.info.returnOnAssets,
        beta := pd.info.beta,
        week52_high := pd.info.fiftyTwoWeekHigh,
        week52_low := pd.info.fiftyTwoWeekLow,
        avg_volume := pd.info.averageVolume,
        sector := pd.info.sector,
        industry := pd.info.industry,
        recommendation := pd.info.recommendationKey,
        target_price := pd.info.targetMeanPrice,
        analyst_count := pd.info.numberOfAnalystOpinions,
        history := pd.closes,
        week52_return := calculate_return pd.closes 252,
        month1_return := calculate_return pd.closes 21,
        week1_return := calculate_return pd.closes 5 }

/-- The fixed fetch-failure message of `analyze_stock`. -/
def unableFetchMsg (symbol : String) : String :=
  "❌ Unable to fetch data for " ++ pyToUpper symbol ++ ". Please check the ticker symbol."

/-- The fixed valuation-failure message of `analyze_stock`. -/
def unableValMsg (symbol : String) : String :=
  "❌ Unable to calculate valuation for " ++ pyToUpper symbol ++ "."

/-- Decimal rendering of a float.  Python renders with format specifiers
such as `:.2f`; the digits are irrelevant to every claim, so the rendering
is abstracted to the exact rational literal. -/
def fmtQ (q : ℚ) : String :=
  toString q

/-- Rendering of an optional float: Python prints the stored `None`. -/
def fmtOpt (o : Option ℚ) : String :=
  match o with
  | some x => fmtQ x
  | none => "None"

/-- Python float truthiness for the modelled numpy values: `0.0` is falsy,
infinities and `nan` are truthy. -/
def npTruthy (o : Option NpFloat) : Bool :=
  match o with
  | some (NpFloat.fin x) => x ≠ 0
  | some _ => true
  | none => false

/-- Rendering of a modelled numpy value. -/
def fmtNp (o : Option NpFloat) : String :=
  match o with
  | some (NpFloat.fin x) => fmtQ x
  | some NpFloat.posInf => "inf"
  | some NpFloat.negInf => "-inf"
  | some NpFloat.nan => "nan"
  | none => "None"

/-- Embeds `StockAnalyzer._prepare_analysis_summary`. -/
def prepare_analysis_summary (data : Snapshot ℚ) (v : ValuationResult ℚ)
    (is_uv : Bool) (confidence : String) (upside : ℚ) : String :=
  let base :=
    "Company: " ++ data.name ++ " (" ++ data.symbol ++ ")\n" ++
    "Current Price: $" ++ fmtOpt data.current_price ++ "\n" ++
    "Sector: " ++ data.sector.getD ("N/A") ++ "\n\n" ++
    "Valuation Metrics:\n" ++
    "- P/E Ratio: " ++ fmtOpt data.pe_ratio ++ "\n" ++
    "- P/B Ratio: " ++ fmtOpt data.pb_ratio ++ "\n" ++
    "- PEG Ratio: " ++ fmtOpt data.peg_ratio ++ "\n" ++
    "- ROE: " ++ fmtOpt data.roe ++ "\n\n" ++
    "Undervalued: " ++ (if is_uv then ("Yes") else ("No")) ++ "\n" ++
    "Confidence: " ++ confidence ++ "\n" ++
    "Expected Upside: " ++ fmtQ upside ++ "%\n\n"
  -- valuation.get('analyst_count', 0): the valuation dictionary never has
  -- this key, so the default 0 is always rendered
  match v.target_price with
  | some tp =>
      if tp ≠ 0 then
        base ++ "Analyst Target: $" ++ fmtQ tp ++ " (0 analysts)"
      else base
  | none => base

/-- The fixed instructional prompt `generate_recommendation` sends to the
prose collaborator, with the analysis summary spliced in. -/
def analysisPrompt (summary : String) : String :=
  "You are a professional stock analyst. Based on the following analysis, \n" ++
  "provide a clear, concise investment recommendation (2-3 paragraphs max).\n\n" ++
  "Stock Analysis:\n" ++ summary ++ "\n\n" ++
  "Provide:\n1. Clear recommendation (Strong Buy/Buy/Hold/Sell/Strong Sell)\n" ++
  "2. Key reasons (2-3 points)\n3. Risk factors to consider\n" ++
  "4. Target price range if applicable\n\nKeep it professional but conversational."

/-- Embeds `StockAnalyzer._generate_rule_based_recommendation`: the deterministic
renderer (action decision table, metric explanation bands, disclaimer). -/
def rule_based_recommendation (data : Snapshot ℚ) (is_uv : Bool)
    (confidence : String) (upside : ℚ) : String :=
  let name := data.name
  let action_reasoning : String × String :=
    if is_uv ∧ confidence = "high" ∧ 20 < upside then
      ("🟢 STRONG BUY",
        name ++ " appears significantly undervalued with " ++ fmtQ upside ++ "% potential upside.")
    else if is_uv ∧ (confidence = "high" ∨ confidence = "medium") ∧ 10 < upside then
      ("🟢 BUY", name ++ " shows good value with " ++ fmtQ upside ++ "% potential upside.")
    else if is_uv ∧ confidence = "low" then
      ("🟡 HOLD/ACCUMULATE", name ++ " may be slightly undervalued but with limited confidence.")
    else ("🟡 HOLD", name ++ " appears fairly valued at current levels.")
  let pe_explanation :=
    match data.pe_ratio with
    | some x => if x ≠ 0 then
        (if x < 15 then (" (undervalued - stock is cheap)")
         else if 25 < x then (" (expensive - high growth expected)")
         else (" (fairly valued)"))
      else ("")
    | none => ""
  let peg_explanation :=
    match data.peg_ratio with
    | some x => if x ≠ 0 then
        (if x < 1 then (" (undervalued gem!)")
         else if 2 < x then (" (overvalued)")
         else (" (fair)"))
      else ("")
    | none => ""
  let roe_explanation :=
    match data.roe with
    | some r => if r ≠ 0 then
        (if 20 < r * 100 then (" (excellent profitability!)")
         else if 15 < r * 100 then (" (good profitability)")
         else if 10 < r * 100 then (" (decent profitability)")
         else (" (low profitability)"))
      else ("")
    | none => ""
  let beta_explanation :=
    match data.beta with
    | some b => if b ≠ 0 then
        (if 3 / 2 < b then (" (very volatile)")
         else if 1 < b then (" (more volatile than market)")
         else if b < 1 / 2 then (" (very stable)")
         else (" (stable)"))
      else ("")
    | none => ""
  let roe_display :=
    match data.roe with
    | some r => if r ≠ 0 then fmtQ (r * 100) ++ "%" else ("N/A")
    | none => "N/A"
  let w52_display :=
    if npTruthy data.week52_return then fmtNp data.week52_return ++ "%" else ("N/A")
  ("**" ++ action_reasoning.1 ++ "** - " ++ data.symbol ++ " @ $" ++
    fmtOpt data.current_price ++ "\n\n" ++ action_reasoning.2 ++ "\n\n" ++
    "**Key Metrics Explained:**\n" ++
    "• P/E Ratio: " ++ fmtOpt data.pe_ratio ++ pe_explanation ++ "\n" ++
    "  (Price/Earnings - How much you pay per $1 of profit. Lower is cheaper.)\n  \n" ++
    "• PEG Ratio: " ++ fmtOpt data.peg_ratio ++ peg_explanation ++ "\n" ++
    "  (P/E adjusted for growth. Under 1.0 is good value.)\n  \n" ++
    "• ROE: " ++ roe_display ++ roe_explanation ++ "\n" ++
    "  (Return on Equity - How efficiently company uses shareholder money. Higher is better.)\n  \n" ++
    "• 52-Week Return: " ++ w52_display ++ "\n" ++
    "  (How much stock gained/lost in past year.)\n\n" ++
    "**Risk Assessment:**\n" ++
    "• Beta: " ++ fmtOpt data.beta ++ beta_explanation ++ "\n" ++
    "  (Volatility vs market. 1.0 = same as market, >1.0 = more risky.)\n  \n" ++
    "• Debt/Equity: " ++ fmtOpt data.debt_to_equity ++ "\n" ++
    "  (How much debt company has. Lower is safer.)\n\n" ++
    "💡 **Disclaimer:** This is for educational purposes only. Always do your own research and consider consulting a financial advisor before investing.").trim

/-- The collaborator environment of the analyzer: the market-data provider
(`Except.error` models a raised provider exception), the float square root
used by the Graham branch, whether an OpenAI client is configured, and the
prose collaborator (`Except.error` models any API failure). -/
structure StockEnv where
  provider : String → Except Unit ProviderData
  sqrtQ : ℚ → ℚ
  client : Bool := false
  complete : String → Except Unit String := fun _ => Except.error ()

/-- Embeds `StockAnalyzer.generate_recommendation`: the prose collaborator's text
when configured and successful, otherwise the rule-based fallback (the
fallback path never raises). -/
def generate_recommendation (E : StockEnv) (data : Snapshot ℚ) (v : ValuationResult ℚ)
    (is_uv : Bool) (confidence : String) (upside : ℚ) : String :=
  let summary := prepare_analysis_summary data v is_uv confidence upside
  if E.client then
    match E.complete (analysisPrompt summary) with
    | Except.ok t => t
    | Except.error _ => rule_based_recommendation data is_uv confidence upside
  else rule_based_recommendation data is_uv confidence upside

/-- Embeds `StockAnalyzer.analyze_stock`: the complete pipeline.  All collaborator
failures are recovered below this level, so the outer `try/except` of the
source has nothing left to catch: the model is a total function into
`String`.  Note that `if not valuation:` is also taken for the *empty*
valuation dictionary, which is falsy in Python. -/
def analyze_stock (E : StockEnv) (symbol : String) : String :=
  match get_stock_data E.provider symbol with
  | none => unableFetchMsg symbol
  | some data =>
    match calculate_intrinsic_value E.sqrtQ data with
    | none => unableValMsg symbol
    | some v =>
      if v.isEmptyDict then unableValMsg symbol
      else
        match is_undervalued data v with
        | (is_uv, confidence, upside) =>
          generate_recommendation E data v is_uv confidence upside

/-- The fixed company-name → ticker table of
`ChatAutomationAgent._check_pattern_responses`. -/
def stock_names : List (String × String) :=
  [("apple", "AAPL"), ("tesla", "TSLA"), ("microsoft", "MSFT"), ("google", "GOOGL"),
   ("amazon", "AMZN"), ("meta", "META"), ("facebook", "META"), ("nvidia", "NVDA"),
   ("amd", "AMD"), ("intel", "INTC"), ("netflix", "NFLX"), ("disney", "DIS"),
   ("walmart", "WMT"), ("coca-cola", "KO"), ("pepsi", "PEP"), ("nike", "NKE"),
   ("mcdonalds", "MCD"), ("boeing", "BA"), ("visa", "V"), ("mastercard", "MA"),
   ("paypal", "PYPL"), ("uber", "UBER"), ("lyft", "LYFT"), ("airbnb", "ABNB"),
   ("spotify", "SPOT"), ("zoom", "ZM"), ("salesforce", "CRM"), ("oracle", "ORCL"),
   ("ibm", "IBM"), ("cisco", "CSCO"), ("adobe", "ADBE"), ("shopify", "SHOP"),
   ("sq", "SQ"), ("square", "SQ"), ("twitter", "X"), ("snap", "SNAP"),
   ("pinterest", "PINS"), ("reddit", "RDDT"), ("coinbase", "COIN")]

/-- The failure-message marker `_check_pattern_responses` tests with
`result.startswith('❌')`. -/
def errMark : String :=
  "❌"

/-- The stock-intent candidate loop of `_check_pattern_responses` (source
lines 130–146), given the tokens the three natural-language regexes
extracted, in pattern order.  A token found in the name table dispatches and
returns unconditionally; otherwise a 2–5 character token is tried directly
as a ticker and its result is returned only when it is not a failure
message; in every other case the loop falls through to the next token. -/
def tryCandidates (analyze : String → String) : List String → Option String
  | [] => none
  | c :: rest =>
    let potential := pyStrip (pyToLower c)
    match stock_names.lookup potential with
    | some sym => some (analyze sym)
    | none =>
      if 2 ≤ potential.length ∧ potential.length ≤ 5 then
        let r := analyze (pyToUpper potential)
        if pyStartsWith r errMark then tryCandidates analyze rest else some r
      else tryCandidates analyze rest

/-- A row of the `BotResponse` table (chatbot/models.py). -/
structure BotResponse where
  trigger_pattern : String
  response_text : String
  is_regex : Bool := false
  is_active : Bool := true
  priority : Int := 0
  use_count : Int := 0
deriving DecidableEq

/-- The default queryset order of `BotResponse`
(`Meta.ordering = ['-priority', 'trigger_pattern']`): descending priority,
then trigger pattern ascending. -/
def botRel (a b : BotResponse) : Prop :=
  b.priority < a.priority ∨ (a.priority = b.priority ∧ a.trigger_pattern ≤ b.trigger_pattern)

instance : DecidableRel botRel :=
  fun _a _b => inferInstanceAs (Decidable (_ ∨ _))

instance : IsTotal BotResponse botRel where
  total a b := by
    rcases lt_trichotomy a.priority b.priority with h | h | h
    · exact Or.inr (Or.inl h)
    · rcases le_total a.trigger_pattern b.trigger_pattern with hs | hs
      · exact Or.inl (Or.inr ⟨h, hs⟩)
      · exact Or.inr (Or.inr ⟨h.symm, hs⟩)
    · exact Or.inl (Or.inl h)

instance : IsTrans BotResponse botRel where
  trans a b c hab hbc := by
    rcases hab with h1 | ⟨h1, h1s⟩ <;> rcases hbc with h2 | ⟨h2, h2s⟩
    · exact Or.inl (h2.trans h1)
    · exact Or.inl (h2 ▸ h1)
    · exact Or.inl (h1 ▸ h2)
    · exact Or.inr ⟨h1.trans h2, h1s.trans h2s⟩

/-- The queryset `BotResponse.objects.filter(is_active=True)` under the model's default
ordering: the active rows sorted by descending priority then trigger
pattern. -/
def activeOrdered (store : List BotResponse) : List BotResponse :=
  (store.filter (fun b => b.is_active)).insertionSort botRel

/-- One custom pattern check: a regex row is searched by the regex engine
with `re.IGNORECASE`; a literal row is a case-insensitive substring test
(`trigger_pattern.lower() in message_lower`). -/
def matchesBot (regexSearch : String → String → Bool) (br : BotResponse)
    (msgLower : String) : Bool :=
  if br.is_regex then regexSearch br.trigger_pattern msgLower
  else charsContain (pyToLower br.trigger_pattern).data msgLower.data

/-- The update `bot_response.use_count += 1; bot_response.save()`: persist the
increment of the row with the given (unique) trigger pattern. -/
def incrementUse (store : List BotResponse) (trigger : String) : List BotResponse :=
  store.map (fun b =>
    if b.trigger_pattern = trigger then { b with use_count := b.use_count + 1 } else b)

/-- The custom-pattern stage of `_check_pattern_responses` (source lines
148–161): walk the active rows in queryset order, and at the first match
increment that row's use counter and return its canned response. -/
def checkCustom (regexSearch : String → String → Bool) (store : List BotResponse)
    (msgLower : String) : Option (String × List BotResponse) :=
  match (activeOrdered store).find? (fun br => matchesBot regexSearch br msgLower) with
  | some br => some (br.response_text, incrementUse store br.trigger_pattern)
  | none => none

/-- The built-in greeting/help/thanks/farewell patterns and responses
(source lines 164–170). -/
def greeting_patterns : List (String × String) :=
  [("\\b(hi|hello|hey|greetings)\\b",
    "Hello! 👋 I\x27m your stock analysis bot. Ask me to analyze any stock! Try: \x27analyze Tesla\x27 or \x27what about Apple stock?\x27"),
   ("\\b(help|assist|support)\\b",
    "I\x27m a stock analysis bot! 📊\n\nI can:\n• Analyze any publicly traded stock\n• Calculate if stocks are undervalued\n• Provide buy/sell recommendations\n• Show key financial metrics\n\nTry: \x27analyze Tesla\x27 or \x27give me analysis on Microsoft\x27"),
   ("\\b(thanks|thank you|thx)\\b",
    "You\x27re welcome! Feel free to ask about more stocks anytime. 😊"),
   ("\\b(bye|goodbye|see you)\\b",
    "Goodbye! Happy investing! 📈 Feel free to return anytime. 👋"),
   ("\\bwhat (can|do) you do\\b",
    "I\x27m a specialized stock analysis bot! 📊\n\nI can analyze stocks and provide:\n• Current valuation metrics\n• Undervalued/overvalued assessment\n• Buy/Hold/Sell recommendations\n• Key financial ratios\n\nJust say \x27analyze [company name]\x27 or \x27what about [stock ticker]\x27")]

/-- The greeting stage: first pattern the (plain, non-IGNORECASE) regex
engine finds in the lowercased message wins. -/
def checkGreetings (regexSearchPlain : String → String → Bool) (msgLower : String) :
    Option String :=
  match greeting_patterns.find? (fun pr => regexSearchPlain pr.1 msgLower) with
  | some pr => some pr.2
  | none => none

/-- The fixed stock-only fallback at the end of `_check_pattern_responses`. -/
def stock_only_message : String :=
  "I\x27m a specialized stock analysis bot. 📊 I can only analyze stocks and provide investment recommendations.\n\nTry asking me:\n• \x27Analyze Tesla\x27\n• \x27What about Apple stock?\x27\n• \x27Give me analysis on Microsoft\x27\n• \x27$AAPL\x27 or any stock ticker"

/-- Embeds `_get_default_response`. -/
def default_response : String :=
  "I\x27m a specialized stock analysis bot. 📊 I can only analyze stocks and provide investment recommendations.\n\nTry asking me:\n• \x27Analyze Tesla\x27\n• \x27What about Apple stock?\x27\n• \x27Give me analysis on Microsoft\x27\n• \x27How is Netflix doing?\x27\n• Or use any stock ticker like $AAPL"

/-- The collaborator environment of the agent: the analyzer entry point,
the regex engine in its two uses (with `re.IGNORECASE` for custom patterns,
plain for the greeting patterns), the candidate tokens the three
stock-intent regexes extract from the raw message (in pattern order), and
the optional OpenAI chat collaborator. -/
structure AgentEnv where
  analyze : String → String
  regexSearch : String → String → Bool
  regexSearchPlain : String → String → Bool
  extract : String → List String
  openai_enabled : Bool := false
  ai : String → Except Unit String := fun _ => Except.error ()

/-- Embeds `ChatAutomationAgent._check_pattern_responses`: stock-intent candidates,
then custom stored patterns, then built-in greetings, then the fixed
stock-only message.  Returns the optional reply together with the pattern
store (updated when a use counter was incremented). -/
def check_pattern_responses (E : AgentEnv) (store : List BotResponse) (message : String) :
    Option String × List BotResponse :=
  let msgLower := pyStrip (pyToLower message)
  match tryCandidates E.analyze (E.extract message) with
  | some r => (some r, store)
  | none =>
    match checkCustom E.regexSearch store msgLower with
    | some p => (some p.1, p.2)
    | none =>
      match checkGreetings E.regexSearchPlain msgLower with
      | some g => (some g, store)
      | none => (some stock_only_message, store)

/-- Embeds `_generate_ai_response` when OpenAI is enabled (any failure falls back
to the default response), `_get_default_response` otherwise. -/
def ai_or_default (E : AgentEnv) (message : String) : String :=
  if E.openai_enabled then
    match E.ai message with
    | Except.ok t => pyStrip t
    | Except.error _ => default_response
  else default_response

/-- Embeds `ChatAutomationAgent._generate_response`: the pattern response when
truthy (non-`None` and non-empty), otherwise the AI/default branch.  The
store update made by the pattern stage persists either way (the counter was
already saved). -/
def generate_response (E : AgentEnv) (store : List BotResponse) (message : String) :
    String × List BotResponse :=
  let pr := check_pattern_responses E store message
  match pr.1 with
  | some s => if s ≠ "" then (s, pr.2) else (ai_or_default E message, pr.2)
  | none => (ai_or_default E message, pr.2)

/-- The `if pe_ratio and pe_ratio > 0:` gate of the P/E branch. -/
def peGate {K : Type} [LinearOrderedField K] (s : Snapshot K) : Bool :=
  match s.pe_ratio with
  | some p => decide (p ≠ 0 ∧ 0 < p)
  | none => false

/-- When `calculate_intrinsic_value` returns `None`: price absent, price
zero (falsy), or the P/E branch comparing an absent eps (`TypeError`,
caught by the broad handler). -/
def valuationUnavailable {K : Type} [LinearOrderedField K] (s : Snapshot K) : Bool :=
  s.current_price.isNone || decide (s.current_price = some 0) || (peGate s && s.eps.isNone)

/-- Inputs under which the P/E signal is populated. -/
def peSignal {K : Type} [LinearOrderedField K] (s : Snapshot K) : Bool :=
  peGate s && (match s.eps with
               | some e => decide (0 < e)
               | none => false)

/-- Inputs under which the Graham signal is populated, for current price
`cp`. -/
def grahamSignal {K : Type} [LinearOrderedField K] (cp : K) (s : Snapshot K) : Bool :=
  match s.eps, s.pb_ratio with
  | some e, some p => decide (p ≠ 0) && decide (e ≠ 0 ∧ cp / p ≠ 0 ∧ 0 < e ∧ 0 < cp / p)
  | _, _ => false

/-- Scenario-B-style snapshot: price present, every ratio and fundamental
input absent (claim C1). -/
def c1snapW : Snapshot ℚ :=
  { symbol := "AAPL", name := "aapl", current_price := some 150, history := [1] }

/-- Provider round trip producing only a current price (claim C1). -/
def c1pd : ProviderData :=
  { info := { currentPrice := some 150 }, closes := [1] }

/-- Analyzer environment whose provider always returns `c1pd` (claim C1). -/
def c1env : StockEnv :=
  { provider := fun _ => Except.ok c1pd, sqrtQ := fun x => x }

/-- Snapshot with price and a positive P/E but an absent eps (claim C2). -/
def c2snap : Snapshot ℚ :=
  { current_price := some 100, pe_ratio := some 15 }

/-- Snapshot with price and a nonzero PEG ratio (claim C2 witness). -/
def c2wSnap : Snapshot ℚ :=
  { current_price := some 100, peg_ratio := some (-3) }

/-- The valuation dictionary produced for `c2wSnap`. -/
def c2wVal : ValuationResult ℚ :=
  { peg_ratio := some (-3), peg_valuation := some ("undervalued") }

/-- Snapshot whose PEG ratio is present but zero (claim C5). -/
def c5snap : Snapshot ℚ :=
  { current_price := some 100, peg_ratio := some 0 }

/-- Snapshot with a negative (nonzero) PEG ratio (claim C5 witness). -/
def c5wSnap : Snapshot ℚ :=
  { current_price := some 100, peg_ratio := some (-3) }

/-- The valuation dictionary produced for `c5wSnap`. -/
def c5wVal : ValuationResult ℚ :=
  { peg_ratio := some (-3), peg_valuation := some ("undervalued") }

/-- Real snapshot whose Graham inputs give `22.5 * 2 * 5 = 225` (claim C6
witness). -/
def c6Snap : Snapshot ℝ :=
  { current_price := some 10, eps := some 2, pb_ratio := some 2 }

/-- Analyzer environment whose provider always raises (claim C7). -/
def c7env : StockEnv :=
  { provider := fun _ => Except.error (), sqrtQ := fun x => x }

/-- Agent environment with no stock-intent match and a false regex engine
(claim C8 witness). -/
def c8env : AgentEnv :=
  { analyze := fun _ => "", regexSearch := fun _ _ => false,
    regexSearchPlain := fun _ _ => false, extract := fun _ => [] }

/-- Stored pattern of priority 5 (claim C8 witness, Scenario E). -/
def c8p5 : BotResponse :=
  { trigger_pattern := "alpha", response_text := "five", priority := 5 }

/-- Stored pattern of priority 10 (claim C8 witness, Scenario E). -/
def c8p10 : BotResponse :=
  { trigger_pattern := "beta", response_text := "ten", priority := 10 }

/-- Analyzer environment whose provider returns an empty historical series
(claim C9 witness). -/
def c9env : StockEnv :=
  { provider := fun _ => Except.ok ({} : ProviderData), sqrtQ := fun x => x }

/-- Agent environment with OpenAI configured (claim C10). -/
def c10env : AgentEnv :=
  { analyze := fun _ => "", regexSearch := fun _ _ => false,
    regexSearchPlain := fun _ _ => false, extract := fun _ => [],
    openai_enabled := true, ai := fun _ => Except.ok ("AI reply") }

/-- Stored pattern whose canned response is the empty string (claim C10). -/
def c10row : BotResponse :=
  { trigger_pattern := "hello", response_text := "" }

/-- Agent environment with nothing matching (claim C10 witness). -/
def c10wenv : AgentEnv :=
  { analyze := fun _ => "", regexSearch := fun _ _ => false,
    regexSearchPlain := fun _ _ => false, extract := fun _ => [] }

/-- Scenario-A-like snapshot: strong profitability inputs (claim C3
witness). -/
def c3wSnap : Snapshot ℚ :=
  { current_price := some 150, roe := some (1 / 5), profit_margin := some (1 / 5) }

/-- Valuation with PEG and P/B both voting undervalued (claim C3
witness). -/
def c3wVal : ValuationResult ℚ :=
  { peg_ratio := some (-3), peg_valuation := some ("undervalued"),
    pb_ratio := some (1 / 2), pb_signal := some ("undervalued") }


lemma vr_pe_none {K : Type} [LinearOrderedField K] (sq : K → K) (s : Snapshot K) (cp : K) :
    (valuationRest sq s cp).pe_upside = none ∧ (valuationRest sq s cp).pe_fair_value = none :=
  ⟨rfl, rfl⟩

lemma vr_peg_ne {K : Type} [LinearOrderedField K] (sq : K → K) (s : Snapshot K) (cp : K) :
    ((valuationRest sq s cp).peg_valuation ≠ none) ↔ pyTruthy s.peg_ratio = true := by
  unfold valuationRest pyTruthy
  cases s.peg_ratio with
  | none => simp
  | some x => by_cases hx : x = 0 <;> simp [hx]

lemma vr_pb_ne {K : Type} [LinearOrderedField K] (sq : K → K) (s : Snapshot K) (cp : K) :
    ((valuationRest sq s cp).pb_signal ≠ none) ↔ pyTruthy s.pb_ratio = true := by
  unfold valuationRest pyTruthy
  cases s.pb_ratio with
  | none => simp
  | some x => by_cases hx : x = 0 <;> simp [hx]

lemma vr_tgt_ne {K : Type} [LinearOrderedField K] (sq : K → K) (s : Snapshot K) (cp : K) :
    ((valuationRest sq s cp).target_upside ≠ none) ↔ pyTruthy s.target_price = true := by
  unfold valuationRest pyTruthy
  cases s.target_price with
  | none => simp
  | some x => by_cases hx : x = 0 <;> simp [hx]

lemma vr_graham_ne {K : Type} [LinearOrderedField K] (sq : K → K) (s : Snapshot K) (cp : K) :
    ((valuationRest sq s cp).graham_number ≠ none) ↔ grahamSignal cp s = true := by
  unfold valuationRest grahamSignal
  cases heps : s.eps with
  | none => cases s.pb_ratio <;> simp
  | some e =>
    cases hpb : s.pb_ratio with
    | none => simp
    | some p =>
      dsimp only
      split_ifs with hp
      · dsimp only
        split_ifs with hc
        · simp [hp, hc]
        · simp [hp, hc]
          intro he hcp hlt
          by_contra hgt
          push_neg at hgt
          exact hc ⟨he, div_ne_zero hcp hp, hlt, hgt⟩
      · dsimp only
        simp [hp]

lemma civ_rest_fields {K : Type} [LinearOrderedField K] (sq : K → K) (s : Snapshot K)
    (v : ValuationResult K) (cp : K) (hv : calculate_intrinsic_value sq s = some v)
    (hcp : s.current_price = some cp) :
    v.graham_number = (valuationRest sq s cp).graham_number ∧
    v.graham_upside = (valuationRest sq s cp).graham_upside ∧
    v.peg_ratio = (valuationRest sq s cp).peg_ratio ∧
    v.peg_valuation = (valuationRest sq s cp).peg_valuation ∧
    v.pb_ratio = (valuationRest sq s cp).pb_ratio ∧
    v.pb_signal = (valuationRest sq s cp).pb_signal ∧
    v.target_price = (valuationRest sq s cp).target_price ∧
    v.target_upside = (valuationRest sq s cp).target_upside := by
  unfold calculate_intrinsic_value at hv
  rw [hcp] at hv
  dsimp only at hv
  by_cases h0 : cp = 0
  · rw [if_pos h0] at hv
    exact absurd hv (by simp)
  · rw [if_neg h0] at hv
    cases hpe : s.pe_ratio with
    | none =>
      rw [hpe] at hv
      dsimp only at hv
      obtain rfl : valuationRest sq s cp = v := Option.some.inj hv
      exact ⟨rfl, rfl, rfl, rfl, rfl, rfl, rfl, rfl⟩
    | some p =>
      rw [hpe] at hv
      dsimp only at hv
      by_cases hgate : p ≠ 0 ∧ 0 < p
      · rw [if_pos hgate] at hv
        cases heps : s.eps with
        | none =>
          rw [heps] at hv
          exact absurd hv (by simp)
        | some e =>
          rw [heps] at hv
          dsimp only at hv
          by_cases hepos : 0 < e
          · rw [if_pos hepos] at hv
            obtain rfl := (Option.some.inj hv).symm
            exact ⟨rfl, rfl, rfl, rfl, rfl, rfl, rfl, rfl⟩
          · rw [if_neg hepos] at hv
            obtain rfl : valuationRest sq s cp = v := Option.some.inj hv
            exact ⟨rfl, rfl, rfl, rfl, rfl, rfl, rfl, rfl⟩
      · rw [if_neg hgate] at hv
        obtain rfl : valuationRest sq s cp = v := Option.some.inj hv
        exact ⟨rfl, rfl, rfl, rfl, rfl, rfl, rfl, rfl⟩

lemma vr_peg_val {K : Type} [LinearOrderedField K] (sq : K → K) (s : Snapshot K) (cp x : K)
    (hx : s.peg_ratio = some x) (hx0 : x ≠ 0) :
    (valuationRest sq s cp).peg_ratio = some x ∧
    (valuationRest sq s cp).peg_valuation =
      some (if x < 1 then ("undervalued") else if 2 < x then ("overvalued") else ("fairly valued")) := by
  unfold valuationRest
  rw [hx]
  dsimp only
  rw [if_pos hx0]
  exact ⟨rfl, rfl⟩

lemma vr_graham_val {K : Type} [LinearOrderedField K] (sq : K → K) (s : Snapshot K) (cp e p : K)
    (he : s.eps = some e) (hp : s.pb_ratio = some p) (hp0 : p ≠ 0)
    (hcond : e ≠ 0 ∧ cp / p ≠ 0 ∧ 0 < e ∧ 0 < cp / p) :
    (valuationRest sq s cp).graham_number = some (sq (45 / 2 * e * (cp / p))) ∧
    (valuationRest sq s cp).graham_upside =
      some ((sq (45 / 2 * e * (cp / p)) - cp) / cp * 100) := by
  unfold valuationRest
  rw [he, hp]
  dsimp only
  rw [if_pos hp0]
  dsimp only
  rw [if_pos hcond]
  exact ⟨rfl, rfl⟩

lemma grahamSignal_iff {K : Type} [LinearOrderedField K] (cp : K) (s : Snapshot K) :
    grahamSignal cp s = true ↔
      ((∃ e, s.eps = some e ∧ 0 < e) ∧ (∃ p, s.pb_ratio = some p ∧ 0 < cp / p)) := by
  unfold grahamSignal
  cases heps : s.eps with
  | none => cases s.pb_ratio <;> simp
  | some e =>
    cases hpb : s.pb_ratio with
    | none => simp
    | some p =>
      dsimp only
      constructor
      · intro h
        simp only [Bool.and_eq_true, decide_eq_true_eq] at h
        exact ⟨⟨e, rfl, h.2.2.2.1⟩, ⟨p, rfl, h.2.2.2.2⟩⟩
      · rintro ⟨⟨e2, he2, hepos⟩, ⟨p2, hp2, hbpos⟩⟩
        obtain rfl : e = e2 := Option.some.inj he2
        obtain rfl : p = p2 := Option.some.inj hp2
        have hp0 : p ≠ 0 := by
          intro h
          rw [h, div_zero] at hbpos
          exact lt_irrefl 0 hbpos
        simp only [Bool.and_eq_true, decide_eq_true_eq]
        exact ⟨hp0, hepos.ne', hbpos.ne', hepos, hbpos⟩

lemma civ_some_of_eps {K : Type} [LinearOrderedField K] (sq : K → K) (s : Snapshot K)
    (cp e : K) (hcp : s.current_price = some cp) (h0 : cp ≠ 0) (he : s.eps = some e) :
    ∃ v, calculate_intrinsic_value sq s = some v := by
  unfold calculate_intrinsic_value
  rw [hcp]
  dsimp only
  rw [if_neg h0]
  cases hpe : s.pe_ratio with
  | none => exact ⟨_, rfl⟩
  | some p =>
    dsimp only
    by_cases hgate : p ≠ 0 ∧ 0 < p
    · rw [if_pos hgate, he]
      dsimp only
      by_cases hepos : 0 < e
      · rw [if_pos hepos]
        exact ⟨_, rfl⟩
      · rw [if_neg hepos]
        exact ⟨_, rfl⟩
    · rw [if_neg hgate]
      exact ⟨_, rfl⟩

lemma vr_empty {K : Type} [LinearOrderedField K] (sq : K → K) (s : Snapshot K) (cp : K)
    (heps : s.eps = none) (hpb : s.pb_ratio = none) (hpeg : s.peg_ratio = none)
    (htp : s.target_price = none) : valuationRest sq s cp = {} := by
  unfold valuationRest
  rw [heps, hpb, hpeg, htp]

lemma civ_empty {K : Type} [LinearOrderedField K] (sq : K → K) (s : Snapshot K) (cp : K)
    (hcp : s.current_price = some cp) (h0 : cp ≠ 0) (hpe : s.pe_ratio = none)
    (heps : s.eps = none) (hpb : s.pb_ratio = none) (hpeg : s.peg_ratio = none)
    (htp : s.target_price = none) :
    calculate_intrinsic_value sq s = some {} := by
  unfold calculate_intrinsic_value
  rw [hcp]
  dsimp only
  rw [if_neg h0, hpe]
  dsimp only
  rw [vr_empty sq s cp heps hpb hpeg htp]

lemma is_undervalued_empty {K : Type} [LinearOrderedField K] (s : Snapshot K)
    (hroe : s.roe = none) (hpm : s.profit_margin = none) :
    is_undervalued s ({} : ValuationResult K) = (false, "none", 0) := by
  simp [is_undervalued, optGtVote, hroe, hpm]

lemma optGtVote_eq_specGtVote {K : Type} [LinearOrderedField K] (o : Option K) (t : K)
    (ht : 0 < t) : optGtVote o t = specGtVote o t := by
  cases o with
  | none => rfl
  | some x =>
    simp only [optGtVote, specGtVote, decide_eq_decide]
    constructor
    · rintro ⟨_, h⟩
      exact h
    · intro h
      exact ⟨(ht.trans h).ne', h⟩

lemma profVote_eq_specProfVote {K : Type} [LinearOrderedField K] (o : Option K) (t : K)
    (ht : 0 < t) :
    (match o with
     | some r => decide (r ≠ 0 ∧ t < r)
     | none => false) =
    (match o with
     | some r => decide (t < r)
     | none => false) := by
  cases o with
  | none => rfl
  | some x =>
    simp only [decide_eq_decide]
    constructor
    · rintro ⟨_, h⟩
      exact h
    · intro h
      exact ⟨(ht.trans h).ne', h⟩

/-- Claim C3: for every snapshot and valuation, the verdict aggregator
counts at most one vote per signal (PEG undervalued with fixed upside 20,
peUpside > 10, grahamUpside > 15, P/B undervalued with fixed upside 15,
targetUpside > 10, and the profitability check contributing no upside),
returns the arithmetic mean of the contributed upsides (0 when none),
confidence high/medium/low/none for vote counts ≥3 / 2 / 1 / 0, and
isUndervalued exactly when confidence is not none: `is_undervalued` agrees
with the aggregator the spec describes on every input. -/
theorem claim_C3 {K : Type} [LinearOrderedField K] (data : Snapshot K)
    (v : ValuationResult K) : is_undervalued data v = spec_aggregate data v := by
  simp only [is_undervalued, spec_aggregate]
  rw [optGtVote_eq_specGtVote v.pe_upside 10 (by norm_num),
    optGtVote_eq_specGtVote v.graham_upside 15 (by norm_num),
    optGtVote_eq_specGtVote v.target_upside 10 (by norm_num),
    profVote_eq_specProfVote data.roe (3 / 20) (by norm_num),
    profVote_eq_specProfVote data.profit_margin (1 / 10) (by norm_num)]

/-- Claim C3 witness: the aggregator agreement evaluated at a concrete
snapshot and valuation with three votes (PEG, P/B, profitability), mean
upside `(20 + 15) / 2` and confidence high. -/
theorem claim_C3_witness :
    is_undervalued c3wSnap c3wVal = spec_aggregate c3wSnap c3wVal ∧
    is_undervalued c3wSnap c3wVal = (true, "high", (20 + 15) / 2) := by
  refine ⟨claim_C3 c3wSnap c3wVal, ?_⟩
  norm_num [is_undervalued, optGtVote, c3wSnap, c3wVal]

/-- Claim C1 (amended): for a fetched snapshot whose current price is
present and nonzero while every ratio and fundamental input is absent, the
valuation result is the empty dictionary, the verdict aggregator on it
yields `(false, none, 0)` — but the pipeline treats the falsy empty
dictionary as a failure and returns the fixed unable-to-calculate-valuation
message instead of rendering a recommendation. -/
theorem claim_C1_amended (E : StockEnv) (sym : String) (snap : Snapshot ℚ) (p : ℚ)
    (hfetch : get_stock_data E.provider sym = some snap)
    (hcp : snap.current_price = some p) (hp0 : p ≠ 0)
    (hpe : snap.pe_ratio = none) (heps : snap.eps = none) (hpb : snap.pb_ratio = none)
    (hpeg : snap.peg_ratio = none) (htp : snap.target_price = none)
    (hroe : snap.roe = none) (hpm : snap.profit_margin = none) :
    calculate_intrinsic_value E.sqrtQ snap = some {} ∧
    is_undervalued snap ({} : ValuationResult ℚ) = (false, "none", 0) ∧
    analyze_stock E sym = unableValMsg sym := by
  have hciv := civ_empty E.sqrtQ snap p hcp hp0 hpe heps hpb hpeg htp
  refine ⟨hciv, is_undervalued_empty snap hroe hpm, ?_⟩
  unfold analyze_stock
  rw [hfetch]
  dsimp only
  rw [hciv]
  rfl

/-- Claim C1 is false as stated: on a snapshot with only `currentPrice`
present the pipeline returns the valuation failure message, not a rendered
recommendation. -/
theorem claim_C1_counterexample :
    analyze_stock c1env ("aapl") = unableValMsg ("aapl") ∧
    unableValMsg ("aapl") = "❌ Unable to calculate valuation for AAPL." :=
  ⟨by decide, by decide⟩

/-- Claim C1 witness: the amended claim evaluated at the concrete
environment `c1env`. -/
theorem claim_C1_witness :
    calculate_intrinsic_value c1env.sqrtQ c1snapW = some {} ∧
    is_undervalued c1snapW ({} : ValuationResult ℚ) = (false, "none", 0) ∧
    analyze_stock c1env ("aapl") = unableValMsg ("aapl") := by
  have hfetch : get_stock_data c1env.provider ("aapl") = some c1snapW := by decide
  exact claim_C1_amended c1env ("aapl") c1snapW 150 hfetch rfl (by norm_num) rfl rfl rfl rfl
    rfl rfl rfl

/-- Claim C2 (amended): the valuation returns Unavailable iff the current
price is absent or zero, or the P/E gate holds (`peRatio` truthy and
positive) while `eps` is absent — in that case the comparison of the absent
eps aborts the whole computation.  Otherwise each of the five signals is
populated independently, exactly when its own inputs are present (and
truthy where the source tests truthiness). -/
theorem claim_C2_amended {K : Type} [LinearOrderedField K] (sq : K → K) (s : Snapshot K) :
    (calculate_intrinsic_value sq s = none ↔ valuationUnavailable s = true) ∧
    (∀ v cp, calculate_intrinsic_value sq s = some v → s.current_price = some cp →
      ((v.pe_upside ≠ none ↔ peSignal s = true) ∧
       (v.graham_number ≠ none ↔ grahamSignal cp s = true) ∧
       (v.peg_valuation ≠ none ↔ pyTruthy s.peg_ratio = true) ∧
       (v.pb_signal ≠ none ↔ pyTruthy s.pb_ratio = true) ∧
       (v.target_upside ≠ none ↔ pyTruthy s.target_price = true))) := by
  unfold calculate_intrinsic_value
  cases hcp : s.current_price with
  | none =>
    refine ⟨by simp [valuationUnavailable, hcp], ?_⟩
    intro v cp hv hcp2
    simp at hv
  | some cp0 =>
    dsimp only
    by_cases h0 : cp0 = 0
    · subst h0
      refine ⟨by simp [valuationUnavailable, hcp], ?_⟩
      intro v cp hv hcp2
      simp at hv
    · rw [if_neg h0]
      cases hpe : s.pe_ratio with
      | none =>
        refine ⟨by simp [valuationUnavailable, peGate, hcp, hpe, h0], ?_⟩
        intro v cp hv hcp2
        obtain rfl : cp = cp0 := (Option.some.inj hcp2).symm
        dsimp only at hv
        obtain rfl : valuationRest sq s cp = v := Option.some.inj hv
        refine ⟨?_, vr_graham_ne sq s cp, vr_peg_ne sq s cp, vr_pb_ne sq s cp,
          vr_tgt_ne sq s cp⟩
        simp [(vr_pe_none sq s cp).1, peSignal, peGate, hpe]
      | some p =>
        dsimp only
        by_cases hgate : p ≠ 0 ∧ 0 < p
        · rw [if_pos hgate]
          cases heps : s.eps with
          | none =>
            refine ⟨by simp [valuationUnavailable, peGate, hcp, hpe, heps, h0, hgate], ?_⟩
            intro v cp hv hcp2
            simp at hv
          | some e =>
            dsimp only
            by_cases hepos : 0 < e
            · rw [if_pos hepos]
              refine ⟨by simp [valuationUnavailable, peGate, hcp, hpe, heps, h0], ?_⟩
              intro v cp hv hcp2
              obtain rfl : cp = cp0 := (Option.some.inj hcp2).symm
              obtain rfl := (Option.some.inj hv).symm
              refine ⟨?_, vr_graham_ne sq s cp, vr_peg_ne sq s cp, vr_pb_ne sq s cp,
                vr_tgt_ne sq s cp⟩
              simp [peSignal, peGate, hpe, heps, hgate, hepos]
            · rw [if_neg hepos]
              refine ⟨by simp [valuationUnavailable, peGate, hcp, hpe, heps, h0], ?_⟩
              intro v cp hv hcp2
              obtain rfl : cp = cp0 := (Option.some.inj hcp2).symm
              obtain rfl : valuationRest sq s cp = v := Option.some.inj hv
              refine ⟨?_, vr_graham_ne sq s cp, vr_peg_ne sq s cp, vr_pb_ne sq s cp,
                vr_tgt_ne sq s cp⟩
              simp [(vr_pe_none sq s cp).1, peSignal, peGate, hpe, heps, hepos]
        · rw [if_neg hgate]
          refine ⟨by simp [valuationUnavailable, peGate, hcp, hpe, h0, hgate], ?_⟩
          intro v cp hv hcp2
          obtain rfl : cp = cp0 := (Option.some.inj hcp2).symm
          obtain rfl : valuationRest sq s cp = v := Option.some.inj hv
          refine ⟨?_, vr_graham_ne sq s cp, vr_peg_ne sq s cp, vr_pb_ne sq s cp,
            vr_tgt_ne sq s cp⟩
          simp [(vr_pe_none sq s cp).1, peSignal, peGate, hpe, hgate]

/-- Claim C2 is false as stated: with `currentPrice` present, `peRatio`
positive and `eps` absent — the claim's own example — the whole valuation
returns Unavailable instead of skipping only the P/E signal. -/
theorem claim_C2_counterexample :
    calculate_intrinsic_value (fun x => x) c2snap = none ∧
    c2snap.current_price = some 100 ∧ c2snap.pe_ratio = some 15 ∧ c2snap.eps = none :=
  ⟨by decide, rfl, rfl, rfl⟩

/-- Claim C2 witness: the amended claim evaluated at a concrete snapshot
whose PEG signal is populated. -/
theorem claim_C2_witness :
    calculate_intrinsic_value (fun x : ℚ => x) c2wSnap = some c2wVal ∧
    (c2wVal.peg_valuation ≠ none ↔ pyTruthy c2wSnap.peg_ratio = true) ∧
    (calculate_intrinsic_value (fun x : ℚ => x) c2wSnap = none ↔
      valuationUnavailable c2wSnap = true) := by
  have hv : calculate_intrinsic_value (fun x : ℚ => x) c2wSnap = some c2wVal := by decide
  have h := claim_C2_amended (fun x : ℚ => x) c2wSnap
  exact ⟨hv, (h.2 c2wVal 100 hv rfl).2.2.1, h.1⟩

/-- Claim C4: the derived return evaluated at the failing input.  With
fewer closes than the window the return is absent, and otherwise it equals
`(close[-1] - close[-w]) / close[-w] * 100`; but when `close[-w]` is zero
the numpy float64 division yields `inf` without raising, the `except`
never fires, and the derived return is present as `+inf` — not absent as
the claim requires. -/
theorem claim_C4_eval :
    calculate_return [1, 2, 3] 5 = none ∧
    calculate_return [1, 1, 1, 1, 3] 5 = some (NpFloat.fin ((3 - 1) / 1 * 100)) ∧
    calculate_return [0, 1, 1, 1, 2] 5 = some NpFloat.posInf := by
  refine ⟨by decide, ?_, ?_⟩ <;> norm_num [calculate_return, npSub, npDiv, npMul]

/-- Claim C5 (amended): the PEG verdict is present iff `pegRatio` is known
and nonzero (Python truthiness; zero is treated as absent), and when
present it is undervalued for `pegRatio < 1` (negative values included),
overvalued for `pegRatio > 2`, and fairly valued otherwise. -/
theorem claim_C5_amended {K : Type} [LinearOrderedField K] (sq : K → K) (s : Snapshot K)
    (v : ValuationResult K) (cp : K) (hv : calculate_intrinsic_value sq s = some v)
    (hcp : s.current_price = some cp) :
    (v.peg_valuation ≠ none ↔ pyTruthy s.peg_ratio = true) ∧
    (∀ x, s.peg_ratio = some x → x ≠ 0 →
      v.peg_ratio = some x ∧
      v.peg_valuation =
        some (if x < 1 then ("undervalued") else if 2 < x then ("overvalued")
          else ("fairly valued"))) := by
  obtain ⟨_, _, hpr, hpv, _, _, _, _⟩ := civ_rest_fields sq s v cp hv hcp
  constructor
  · rw [hpv]
    exact vr_peg_ne sq s cp
  · intro x hx hx0
    rw [hpr, hpv]
    exact vr_peg_val sq s cp x hx hx0

/-- Claim C5 is false as stated: with `pegRatio` known and equal to 0 the
PEG verdict is absent, though the claim requires it to be present. -/
theorem claim_C5_counterexample :
    (calculate_intrinsic_value (fun x => x) c5snap).map (fun v => v.peg_valuation) = some none ∧
    c5snap.peg_ratio = some 0 ∧ c5snap.current_price = some 100 := by
  refine ⟨?_, rfl, rfl⟩
  decide

/-- Claim C5 witness: the amended claim evaluated at a snapshot with a
negative PEG ratio. -/
theorem claim_C5_witness :
    calculate_intrinsic_value (fun x : ℚ => x) c5wSnap = some c5wVal ∧
    c5wVal.peg_ratio = some (-3) ∧ c5wVal.peg_valuation = some ("undervalued") := by
  have hv : calculate_intrinsic_value (fun x : ℚ => x) c5wSnap = some c5wVal := by decide
  have h := (claim_C5_amended (fun x : ℚ => x) c5wSnap c5wVal 100 hv rfl).2 (-3) rfl
    (by norm_num)
  refine ⟨hv, h.1, ?_⟩
  rw [h.2]
  norm_num

/-- Claim C6: for every snapshot with `currentPrice` present, the Graham
signal is present iff `eps > 0` and the derived book value
`currentPrice / pbRatio` is positive, and when present `grahamNumber`
equals `sqrt(22.5 * eps * bookValue)` and `grahamUpside` equals
`(grahamNumber - currentPrice) / currentPrice * 100`. -/
theorem claim_C6 (s : Snapshot ℝ) (cp : ℝ) (hcp : s.current_price = some cp) :
    ((∃ v, calculate_intrinsic_value Real.sqrt s = some v ∧ v.graham_number ≠ none) ↔
      ((∃ e, s.eps = some e ∧ 0 < e) ∧ (∃ p, s.pb_ratio = some p ∧ 0 < cp / p))) ∧
    (∀ v e p, calculate_intrinsic_value Real.sqrt s = some v → s.eps = some e →
      s.pb_ratio = some p → 0 < e → 0 < cp / p →
      v.graham_number = some (Real.sqrt (45 / 2 * e * (cp / p))) ∧
      v.graham_upside = some ((Real.sqrt (45 / 2 * e * (cp / p)) - cp) / cp * 100)) := by
  constructor
  · constructor
    · rintro ⟨v, hv, hg⟩
      rw [(civ_rest_fields Real.sqrt s v cp hv hcp).1] at hg
      exact (grahamSignal_iff cp s).mp ((vr_graham_ne Real.sqrt s cp).mp hg)
    · rintro ⟨⟨e, he, hepos⟩, ⟨p, hp, hbpos⟩⟩
      have h0 : cp ≠ 0 := by
        intro h
        rw [h, zero_div] at hbpos
        exact lt_irrefl 0 hbpos
      obtain ⟨v, hv⟩ := civ_some_of_eps Real.sqrt s cp e hcp h0 he
      refine ⟨v, hv, ?_⟩
      rw [(civ_rest_fields Real.sqrt s v cp hv hcp).1]
      exact (vr_graham_ne Real.sqrt s cp).mpr
        ((grahamSignal_iff cp s).mpr ⟨⟨e, he, hepos⟩, ⟨p, hp, hbpos⟩⟩)
  · intro v e p hv he hp hepos hbpos
    have hp0 : p ≠ 0 := by
      intro h
      rw [h, div_zero] at hbpos
      exact lt_irrefl 0 hbpos
    obtain ⟨h1, h2, _⟩ := civ_rest_fields Real.sqrt s v cp hv hcp
    rw [h1, h2]
    exact vr_graham_val Real.sqrt s cp e p he hp hp0 ⟨hepos.ne', hbpos.ne', hepos, hbpos⟩

/-- Claim C6 witness: the Graham number at `eps = 2`, `price = 10`,
`pbRatio = 2` is `sqrt 225 = 15`. -/
theorem claim_C6_witness :
    ∃ v, calculate_intrinsic_value Real.sqrt c6Snap = some v ∧
      v.graham_number = some (Real.sqrt 225) ∧
      v.graham_upside = some ((Real.sqrt 225 - 10) / 10 * 100) ∧
      Real.sqrt 225 = 15 := by
  obtain ⟨hiff, hval⟩ := claim_C6 c6Snap 10 rfl
  obtain ⟨v, hv, _⟩ := hiff.mpr ⟨⟨2, rfl, by norm_num⟩, ⟨2, rfl, by norm_num⟩⟩
  obtain ⟨h1, h2⟩ := hval v 2 2 hv rfl rfl (by norm_num) (by norm_num)
  have h225 : Real.sqrt 225 = 15 := by
    rw [show (225 : ℝ) = 15 ^ 2 by norm_num, Real.sqrt_sq (by norm_num : (0:ℝ) ≤ 15)]
  refine ⟨v, hv, ?_, ?_, h225⟩
  · rw [h1]
    norm_num
  · rw [h2]
    norm_num

/-- Claim C7 (amended): a candidate resolved through the name table
dispatches to the pipeline and returns its text unconditionally — failure
messages included; only a candidate tried through the 2–5-character direct
ticker heuristic falls through to the remaining candidates when the
pipeline returns a failure message (and returns the text otherwise); a
candidate matching neither route falls through. -/
theorem claim_C7_amended (analyze : String → String) (c : String) (rest : List String)
    (sym : String) :
    (stock_names.lookup (pyStrip (pyToLower c)) = some sym →
      tryCandidates analyze (c :: rest) = some (analyze sym)) ∧
    (stock_names.lookup (pyStrip (pyToLower c)) = none →
      2 ≤ (pyStrip (pyToLower c)).length → (pyStrip (pyToLower c)).length ≤ 5 →
      (pyStartsWith (analyze (pyToUpper (pyStrip (pyToLower c)))) errMark = true →
        tryCandidates analyze (c :: rest) = tryCandidates analyze rest) ∧
      (pyStartsWith (analyze (pyToUpper (pyStrip (pyToLower c)))) errMark = false →
        tryCandidates analyze (c :: rest) =
          some (analyze (pyToUpper (pyStrip (pyToLower c)))))) ∧
    (stock_names.lookup (pyStrip (pyToLower c)) = none →
      ¬(2 ≤ (pyStrip (pyToLower c)).length ∧ (pyStrip (pyToLower c)).length ≤ 5) →
      tryCandidates analyze (c :: rest) = tryCandidates analyze rest) := by
  refine ⟨?_, ?_, ?_⟩
  · intro h
    simp only [tryCandidates]
    rw [h]
  · intro h h2 h5
    constructor
    · intro hstart
      simp only [tryCandidates]
      rw [h]
      dsimp only
      rw [if_pos ⟨h2, h5⟩, hstart]
      rfl
    · intro hstart
      simp only [tryCandidates]
      rw [h]
      dsimp only
      rw [if_pos ⟨h2, h5⟩, hstart]
      rfl
  · intro h hlen
    simp only [tryCandidates]
    rw [h]
    dsimp only
    rw [if_neg hlen]

/-- Claim C7 is false as stated: a candidate resolved via the name table
whose fetch fails makes the router return the fetch failure message
immediately instead of falling through to the next candidate. -/
theorem claim_C7_counterexample :
    tryCandidates (analyze_stock c7env) ["tesla", "apple"] = some (unableFetchMsg ("TSLA")) ∧
    pyStartsWith (unableFetchMsg ("TSLA")) errMark = true :=
  ⟨by decide, by decide⟩

/-- Claim C7 witness: the amended claim evaluated on a table hit and on a
failing direct-ticker candidate. -/
theorem claim_C7_witness :
    tryCandidates (fun _ => "ok") ["tesla"] = some ("ok") ∧
    tryCandidates (fun _ => "❌ fail") ["qqqq"] = none := by
  constructor
  · exact (claim_C7_amended (fun _ => "ok") "tesla" [] "TSLA").1 (by decide)
  · exact ((claim_C7_amended (fun _ => "❌ fail") "qqqq" [] "X").2.1 (by decide) (by decide)
      (by decide)).1 (by decide)

/-- Claim C8: with no stock-intent match, the active stored patterns are
evaluated in descending priority then trigger-pattern order, the first
matching pattern's canned response is returned, and exactly that pattern's
use counter is incremented while every other row is unchanged. -/
theorem claim_C8 (E : AgentEnv) (store : List BotResponse) (message : String)
    (br : BotResponse)
    (hstock : tryCandidates E.analyze (E.extract message) = none)
    (hfind : (activeOrdered store).find?
        (fun b => matchesBot E.regexSearch b (pyStrip (pyToLower message))) = some br) :
    check_pattern_responses E store message =
      (some br.response_text, incrementUse store br.trigger_pattern) ∧
    List.Sorted botRel (activeOrdered store) ∧
    (incrementUse store br.trigger_pattern).length = store.length ∧
    (∀ (i : ℕ) (h : i < store.length),
      (incrementUse store br.trigger_pattern)[i]? =
        some (if (store.get ⟨i, h⟩).trigger_pattern = br.trigger_pattern then
          { store.get ⟨i, h⟩ with use_count := (store.get ⟨i, h⟩).use_count + 1 }
          else store.get ⟨i, h⟩)) := by
  refine ⟨?_, ?_, ?_, ?_⟩
  · unfold check_pattern_responses
    rw [hstock]
    dsimp only
    unfold checkCustom
    rw [hfind]
  · exact List.sorted_insertionSort botRel _
  · exact List.length_map _ _
  · intro i h
    unfold incrementUse
    rw [List.getElem?_map, List.getElem?_eq_getElem h]
    rfl

/-- Claim C8 witness (Scenario E): of two matching patterns with
priorities 5 and 10, the priority-10 response is returned and only its
counter increments. -/
theorem claim_C8_witness :
    check_pattern_responses c8env [c8p5, c8p10] "alpha beta" =
      (some ("ten"), [c8p5, { c8p10 with use_count := 1 }]) := by
  have h := claim_C8 c8env [c8p5, c8p10] "alpha beta" c8p10 rfl (by decide)
  rw [h.1]
  decide

/-- Claim C9: the analysis pipeline is a total function into `String` for
every collaborator outcome; a provider error or an empty historical series
produces the fixed unable-to-fetch message, and a snapshot without a price
produces the fixed valuation failure message. -/
theorem claim_C9 (E : StockEnv) (sym : String) :
    (∀ pd, E.provider (pyToUpper sym) = Except.ok pd → pd.closes = [] →
      analyze_stock E sym = unableFetchMsg sym) ∧
    (∀ err, E.provider (pyToUpper sym) = Except.error err →
      analyze_stock E sym = unableFetchMsg sym) ∧
    (∀ snap, get_stock_data E.provider sym = some snap → snap.current_price = none →
      analyze_stock E sym = unableValMsg sym) ∧
    (∃ out : String, analyze_stock E sym = out) := by
  refine ⟨?_, ?_, ?_, ⟨_, rfl⟩⟩
  · intro pd hok hempty
    unfold analyze_stock get_stock_data
    rw [hok]
    dsimp only
    simp [hempty]
  · intro err herr
    unfold analyze_stock get_stock_data
    rw [herr]
  · intro snap hsnap hcp
    have hnone : calculate_intrinsic_value E.sqrtQ snap = none := by
      unfold calculate_intrinsic_value
      rw [hcp]
    unfold analyze_stock
    rw [hsnap]
    dsimp only
    rw [hnone]

/-- Claim C9 witness: an empty historical series produces exactly the
fixed unable-to-fetch message. -/
theorem claim_C9_witness :
    analyze_stock c9env ("tsla") = unableFetchMsg ("tsla") ∧
    unableFetchMsg ("tsla") = "❌ Unable to fetch data for TSLA. Please check the ticker symbol." := by
  refine ⟨(claim_C9 c9env ("tsla")).1 ({} : ProviderData) rfl rfl, by decide⟩

/-- Claim C10 (amended): the pattern-response stage always returns a
(possibly empty) string, never `None`; the response generator returns
exactly that string whenever it is non-empty.  (When it is the empty
string — falsy in Python — the AI/default branch is reached, so the two
functions are not extensionally equal.) -/
theorem claim_C10_amended (E : AgentEnv) (store : List BotResponse) (message : String) :
    (check_pattern_responses E store message).1.isSome = true ∧
    (∀ s store2, check_pattern_responses E store message = (some s, store2) → s ≠ "" →
      generate_response E store message = (s, store2)) := by
  constructor
  · unfold check_pattern_responses
    cases tryCandidates E.analyze (E.extract message) with
    | some r => rfl
    | none =>
      dsimp only
      cases checkCustom E.regexSearch store (pyStrip (pyToLower message)) with
      | some p => rfl
      | none =>
        dsimp only
        cases checkGreetings E.regexSearchPlain (pyStrip (pyToLower message)) with
        | some g => rfl
        | none => rfl
  · intro s store2 h hs
    unfold generate_response
    rw [h]
    dsimp only
    rw [if_pos hs]

/-- Claim C10 is false as stated: a matching stored pattern with an empty
canned response makes the generator fall through to the AI branch, so the
generator is not extensionally equal to the pattern-response stage. -/
theorem claim_C10_counterexample :
    (check_pattern_responses c10env [c10row] "hello").1 = some ("") ∧
    (generate_response c10env [c10row] "hello").1 = "AI reply" ∧
    some ((generate_response c10env [c10row] "hello").1) ≠
      (check_pattern_responses c10env [c10row] "hello").1 :=
  ⟨by decide, by decide, by decide⟩

/-- Claim C10 witness: with nothing matching, the generator returns the
stock-only fallback produced by the pattern stage. -/
theorem claim_C10_witness :
    (check_pattern_responses c10wenv [] "xyz").1.isSome = true ∧
    generate_response c10wenv [] "xyz" = (stock_only_message, []) := by
  have h := claim_C10_amended c10wenv [] "xyz"
  exact ⟨h.1, h.2 stock_only_message [] (by rfl) (by decide)⟩

end TelexBot
